import Mathlib

/-!
Verification of the session-coordination layer of the `max` assistant daemon.

The definitions below are a shallow embedding of the persistent-session
revision of `src/copilot/orchestrator.ts` (the revision whose drain loop
serializes all turns onto one long-lived session), of the worker tools in
`src/copilot/tools.ts`, and of the durable state store in `src/store/db.ts`.
Remote SDK calls (session creation, resumption, `sendAndWait`) are modelled
as environment-supplied outcomes; the single-threaded event loop is modelled
as explicit state passing, with one event per suspension point.
-/

namespace Max

/-! ## Error classification (`orchestrator.ts`)

JavaScript case-insensitive regular-expression tests are modelled by
lower-casing the subject and searching for the (already lower-case)
alternation branches as contiguous substrings. -/

/-- ASCII lower-casing of a character list (the subject side of a
case-insensitive match). -/
def lowerChars (s : List Char) : List Char := s.map Char.toLower

/-- Does the pattern occur at the start of the character list? -/
def charsLeadWith : List Char → List Char → Bool
  | [], _ => true
  | _ :: _, [] => false
  | a :: as, b :: bs => a == b && charsLeadWith as bs

/-- Does the pattern occur contiguously anywhere in the character list? -/
def charsHave (needle : List Char) : List Char → Bool
  | [] => charsLeadWith needle []
  | hay@(_ :: rest) => charsLeadWith needle hay || charsHave needle rest

/-- Case-insensitive test whether the lower-case pattern occurs in the
message (one alternation branch of a JavaScript regex with the `i` flag). -/
def msgHas (msg pat : String) : Bool :=
  charsHave pat.data (lowerChars msg.data)

/-- `isRecoverableError` from `orchestrator.ts`: the error message matches
/timeout|disconnect|connection|EPIPE|ECONNRESET|ECONNREFUSED|socket|closed|ENOENT|spawn|not found|expired|stale/i. -/
def isRecoverableError (msg : String) : Bool :=
  ["timeout", "disconnect", "connection", "epipe", "econnreset",
   "econnrefused", "socket", "closed", "enoent", "spawn", "not found",
   "expired", "stale"].any (fun p => msgHas msg p)

/-- The cancellation classification in `sendToOrchestrator`'s catch block:
the error message matches /cancelled|abort/i. -/
def isCancelMsg (msg : String) : Bool :=
  ["cancelled", "abort"].any (fun p => msgHas msg p)

/-- `MAX_RETRIES` from `orchestrator.ts`. -/
def MAX_RETRIES : Nat := 3

/-! ## Final-content fallback (`executeOnSession`) -/

/-- JavaScript's short-circuiting `||` on strings: the empty string is
falsy, so `a || b` yields `b` exactly when `a` is empty (or absent). -/
def jsOrElse (a b : String) : String := if a = "" then b else a

/-- The value computed by `executeOnSession` after `sendAndWait` resolves:
`result?.data?.content || accumulated || "(No response)"`. `content` is
`none` when the result carries no content field; `deltas` are the
`assistant.message_delta` payloads accumulated in arrival order. -/
def finalContent (content : Option String) (deltas : List String) : String :=
  jsOrElse (content.getD "") (jsOrElse (String.join deltas) "(No response)")

/-! ## The retry loop of `sendToOrchestrator`

The async IIFE in `sendToOrchestrator` runs
`for (attempt = 0; attempt <= MAX_RETRIES; attempt++)`, awaiting the queued
turn's promise each iteration.  `SendOutcome` is how one iteration's await
settles; the loop issues at most one terminal (`done = true`) delivery. -/

/-- How one attempt's awaited promise settles. -/
inductive SendOutcome
  | ok (content : String)
  | err (msg : String)
deriving DecidableEq

/-- The loop body: on resolution, one terminal delivery of the content; on
rejection, a message matching /cancelled|abort/i returns with no delivery,
a recoverable message with attempts remaining sleeps and retries, and any
other message yields one terminal error delivery.  Returns the terminal
deliveries issued (text, done) and the number of attempts made.  The fuel
argument equals the number of loop iterations still permitted by the
`for` bound. -/
def sendLoop (env : Nat → SendOutcome) : Nat → Nat → List (String × Bool) × Nat
  | _, 0 => ([], 0)
  | attempt, fuel + 1 =>
    match env attempt with
    | .ok s => ([(s, true)], 1)
    | .err m =>
      if isCancelMsg m then ([], 1)
      else if isRecoverableError m ∧ attempt < MAX_RETRIES then
        let r := sendLoop env (attempt + 1) fuel
        (r.1, r.2 + 1)
      else ([("Error: " ++ m, true)], 1)

/-- The whole retry loop, entered at attempt 0 with exactly the
`MAX_RETRIES + 1` iterations the `for` bound permits. -/
def sendToOrchestratorLoop (env : Nat → SendOutcome) : List (String × Bool) × Nat :=
  sendLoop env 0 (MAX_RETRIES + 1)

/-! ## Session lifecycle (`ensureOrchestratorSession`) -/

/-- An SDK session, abstracted to its resumable identifier. -/
structure Session where
  sessionId : String
deriving DecidableEq

/-- The remote outcomes `ensureOrchestratorSession` runs against:
whether `ensureClient` yields a connected client, how
`client.resumeSession` settles for a given saved identifier, and how
`client.createSession` settles. -/
structure SessionEnv where
  clientOk : Bool
  resumeOutcome : String → Except String Session
  createOutcome : Except String Session

/-- The module state touched by `ensureOrchestratorSession`: the cached
`orchestratorSession` reference and the durable
`max_state["orchestrator_session_id"]` row (written through `setState`,
an INSERT OR REPLACE, modelled as overwriting the option). -/
structure LifecycleState where
  orchestratorSession : Option Session
  persisted : Option String
deriving DecidableEq

/-- The fresh-creation tail of `ensureOrchestratorSession`: create a
session and, only once creation has succeeded, persist its identifier;
a creation failure propagates with the state untouched. -/
def createFresh (env : SessionEnv) (st : LifecycleState) :
    Except String Session × LifecycleState :=
  match env.createOutcome with
  | .ok s => (.ok s, { orchestratorSession := some s, persisted := some s.sessionId })
  | .error e => (.error e, st)

/-- `ensureOrchestratorSession`: return the cached session if present;
otherwise ensure the client, try to resume the persisted identifier
(failures fall through silently), and fall back to fresh creation. -/
def ensureOrchestratorSession (env : SessionEnv) (st : LifecycleState) :
    Except String Session × LifecycleState :=
  match st.orchestratorSession with
  | some s => (.ok s, st)
  | none =>
    if env.clientOk then
      match st.persisted with
      | some savedId =>
        match env.resumeOutcome savedId with
        | .ok s => (.ok s, { st with orchestratorSession := some s })
        | .error _ => createFresh env st
      | none => createFresh env st
    else (.error "client reset failed", st)

/-! ## Worker registry and tools (`tools.ts`)

The in-memory `workers` Map and the durable `worker_sessions` table are
both keyed by worker name (the table's `name` column is UNIQUE), so each
is an association list acted on by key.  SDK session handles are
abstracted to their identifiers; observable actions are recorded as an
effect trace in program order. -/

/-- A user-facing source channel (`"telegram" | "tui"`), as used for
`WorkerInfo.originChannel` and the proactive notify hook. -/
inductive Channel
  | telegram
  | tui
deriving DecidableEq

/-- `WorkerInfo.status` from `tools.ts`. -/
inductive WorkerStatus
  | idle
  | running
  | error
deriving DecidableEq

/-- `WorkerInfo` from `tools.ts`, the in-memory registry entry; the
`session` handle is abstracted to its identifier. -/
structure WorkerInfo where
  name : String
  sessionId : String
  workingDir : String
  status : WorkerStatus
  lastOutput : Option String
  originChannel : Option Channel
deriving DecidableEq

/-- A `worker_sessions` row (columns beyond the key). -/
structure WorkerRow where
  copilotSessionId : Option String
  workingDir : String
  status : String
deriving DecidableEq

/-- Remove the entry with the given key from an association list
(a Map `delete` / SQL `DELETE ... WHERE name = ?`). -/
def alistRemove (k : String) (l : List (String × α)) : List (String × α) :=
  l.filter (fun p => p.1 != k)

/-- Insert-or-replace by key (a Map `set` / SQL `INSERT OR REPLACE`). -/
def alistSet (k : String) (v : α) (l : List (String × α)) : List (String × α) :=
  alistRemove k l ++ [(k, v)]

/-- Update the value at the given key when it is present
(a field mutation on the entry / SQL `UPDATE ... WHERE name = ?`). -/
def alistUpdate (k : String) (f : α → α) (l : List (String × α)) : List (String × α) :=
  l.map (fun p => if p.1 = k then (p.1, f p.2) else p)

/-- Key lookup (`Map.get` / `SELECT ... WHERE name = ?`). -/
def alistGet (k : String) : List (String × α) → Option α
  | [] => none
  | (k', v) :: rest => if k' = k then some v else alistGet k rest

/-- Key membership (`Map.has`). -/
def alistHas (k : String) (l : List (String × α)) : Bool :=
  (alistGet k l).isSome

/-- The shared mutable state the worker tools act on: the in-memory
registry and its durable mirror table. -/
structure ToolsState where
  workers : List (String × WorkerInfo)
  workerRows : List (String × WorkerRow)
deriving DecidableEq

/-- Observable actions of the worker tools, in program order.
`enqueueBackgroundTurn` is the `onWorkerComplete` report — a call to
`feedBackgroundResult`, which captures the worker's origin channel from
the registry at that moment and submits a synthetic turn. -/
inductive WorkerEff
  | createSession (sessionId : String) (workingDir : String)
  | dispatchSend (name : String) (prompt : String)
  | enqueueBackgroundTurn (name : String) (result : String) (origin : Option Channel)
  | destroySession (sessionId : String)
  | removeWorker (name : String)
  | removeRow (name : String)
deriving DecidableEq

/-- The worker names rendered by the `list_sessions` tool (one bullet per
registry entry, in registry order). -/
def listedWorkerNames (st : ToolsState) : List String :=
  st.workers.map (fun p => p.1)

/-- The origin channel `feedBackgroundResult` captures for a completed
worker: `workers.get(workerName)?.originChannel`. -/
def feedOriginChannel (st : ToolsState) (workerName : String) : Option Channel :=
  (alistGet workerName st.workers).bind (fun w => w.originChannel)

/-- The delivery callback `feedBackgroundResult` wires to its synthetic
background turn: partial updates are dropped, and the terminal delivery
invokes the proactive notify hook with the captured origin channel
(omitted — `none` — when the worker had no recorded origin).  Returns the
notify invocations made. -/
def backgroundCallbackNotify (origin : Option Channel) (text : String) (done : Bool) :
    List (String × Option Channel) :=
  if done then [(text, origin)] else []

/-- What the `.then`/`.catch` handlers store into `worker.lastOutput`:
`result?.data?.content || "No response"` on resolution, the error message
on rejection. -/
def dispatchOutput : SendOutcome → String
  | .ok content => jsOrElse content "No response"
  | .err msg => msg

/-- The text the `.then`/`.catch` handlers hand to `onWorkerComplete`:
the recorded output on resolution, the message wrapped in "Error: " on
rejection. -/
def dispatchReportText : SendOutcome → String
  | .ok content => jsOrElse content "No response"
  | .err msg => "Error: " ++ msg

/-- The continuation chain attached to a worker dispatch in
`create_worker_session` / `send_to_worker`
(`sendAndWait(...).then(...).catch(...).finally(...)`): the settled
outcome is recorded as `lastOutput` on the captured worker object (the
same object the registry holds, when still present), handed to
`onWorkerComplete` (= `feedBackgroundResult`), and only then the
`finally` teardown runs: destroy the session handle, delete the registry
entry, delete the mirror row. -/
def dispatchComplete (st : ToolsState) (w : WorkerInfo) (outcome : SendOutcome) :
    ToolsState × List WorkerEff :=
  let st1 : ToolsState :=
    { st with
      workers :=
        alistUpdate w.name
          (fun wi => { wi with lastOutput := some (dispatchOutput outcome) }) st.workers }
  let origin := feedOriginChannel st1 w.name
  let st2 : ToolsState :=
    { workers := alistRemove w.name st1.workers,
      workerRows := alistRemove w.name st1.workerRows }
  (st2,
   [.enqueueBackgroundTurn w.name (dispatchReportText outcome) origin,
    .destroySession w.sessionId,
    .removeWorker w.name,
    .removeRow w.name])

/-- Arguments of the `create_worker_session` tool. -/
structure CreateArgs where
  name : String
  workingDir : String
  initialPrompt : Option String

/-- The `create_worker_session` handler: reject a duplicate name without
touching anything; otherwise create a session, register the worker (its
origin channel read from `getCurrentSourceChannel()`), persist the mirror
row, and — when an initial prompt is supplied — mark it running and
dispatch without waiting (the dispatch's settlement is
`dispatchComplete`). -/
def createWorkerSessionTool (newSessionId : String) (cur : Option Channel)
    (st : ToolsState) (args : CreateArgs) : String × ToolsState × List WorkerEff :=
  if alistHas args.name st.workers then
    ("Worker '" ++ args.name ++ "' already exists. Use send_to_worker to interact with it.",
     st, [])
  else
    let w : WorkerInfo :=
      { name := args.name, sessionId := newSessionId, workingDir := args.workingDir,
        status := .idle, lastOutput := none, originChannel := cur }
    let row : WorkerRow :=
      { copilotSessionId := some newSessionId, workingDir := args.workingDir, status := "idle" }
    let st1 : ToolsState :=
      { workers := alistSet args.name w st.workers,
        workerRows := alistSet args.name row st.workerRows }
    match args.initialPrompt with
    | some p =>
      let st2 : ToolsState :=
        { workers := alistUpdate args.name (fun wi => { wi with status := .running }) st1.workers,
          workerRows := alistUpdate args.name (fun r => { r with status := "running" }) st1.workerRows }
      ("Worker '" ++ args.name ++ "' created in " ++ args.workingDir ++
         ". Task dispatched — I'll notify you when it's done.",
       st2,
       [.createSession newSessionId args.workingDir,
        .dispatchSend args.name ("Working directory: " ++ args.workingDir ++ "\n\n" ++ p)])
    | none =>
      ("Worker '" ++ args.name ++ "' created in " ++ args.workingDir ++
         ". Use send_to_worker to send it prompts.",
       st1, [.createSession newSessionId args.workingDir])

/-- Arguments of the `attach_machine_session` tool. -/
structure AttachArgs where
  sessionId : String
  name : String

/-- The `attach_machine_session` handler: reject a duplicate worker name
without touching anything; otherwise resume the machine session and
register it as an idle worker with workingDir `"(attached)"`. -/
def attachMachineSessionTool (resumeOutcome : String → Except String Session)
    (cur : Option Channel) (st : ToolsState) (args : AttachArgs) :
    String × ToolsState × List WorkerEff :=
  if alistHas args.name st.workers then
    ("A worker named '" ++ args.name ++ "' already exists. Choose a different name.", st, [])
  else
    match resumeOutcome args.sessionId with
    | .ok s =>
      let w : WorkerInfo :=
        { name := args.name, sessionId := s.sessionId, workingDir := "(attached)",
          status := .idle, lastOutput := none, originChannel := cur }
      let row : WorkerRow :=
        { copilotSessionId := some args.sessionId, workingDir := "(attached)", status := "idle" }
      ("Attached to session " ++ args.sessionId.take 8 ++ "… as worker '" ++ args.name ++
         "'. You can now send_to_worker to interact with it.",
       { workers := alistSet args.name w st.workers,
         workerRows := alistSet args.name row st.workerRows },
       [])
    | .error msg => ("Failed to attach to session: " ++ msg, st, [])

/-- Arguments of the `send_to_worker` tool. -/
structure SendArgs where
  name : String
  prompt : String

/-- The `send_to_worker` handler: unknown or busy workers are rejected;
otherwise the worker is marked running (registry and mirror) and the
prompt dispatched without waiting (settled later by `dispatchComplete`). -/
def sendToWorkerTool (st : ToolsState) (args : SendArgs) :
    String × ToolsState × List WorkerEff :=
  match alistGet args.name st.workers with
  | none =>
    ("No worker named '" ++ args.name ++ "'. Use list_sessions to see available workers.",
     st, [])
  | some w =>
    if w.status = .running then
      ("Worker '" ++ args.name ++ "' is currently busy. Wait for it to finish or kill it.",
       st, [])
    else
      ("Task dispatched to worker '" ++ args.name ++ "'. I'll notify you when it's done.",
       { workers := alistUpdate args.name (fun wi => { wi with status := .running }) st.workers,
         workerRows := alistUpdate args.name (fun r => { r with status := "running" }) st.workerRows },
       [.dispatchSend args.name args.prompt])

/-! ## Single-flight machine (`processQueue` and the `processing` guard)

A small-step model of the event loop around `processQueue`.  Each call to
`processQueue` that passes the `if (processing) return` guard becomes an
active drain-loop instance; the state type deliberately permits several
simultaneous instances, so that the single-flight property is a
consequence of the guard rather than of the model's shape.  Suspension
points of the drain loop (awaiting `ensureOrchestratorSession`, awaiting
`sendAndWait`) separate the steps. -/

/-- Where a drain-loop instance currently is inside `executeOnSession`. -/
inductive DrainPhase
  | ensuring
  | sending
deriving DecidableEq

/-- One active instance of the `processQueue` drain loop, holding the
turn it has dequeued. -/
structure Drain where
  turn : Nat
  phase : DrainPhase
deriving DecidableEq

/-- The orchestrator state relevant to serialization: the shared
`messageQueue` (turns abstracted to identifiers — submissions from the
channels and from `feedBackgroundResult` alike land here), the
`processing` flag, and the active drain instances. -/
structure FlightState where
  queue : List Nat
  processing : Bool
  drains : List Drain
deriving DecidableEq

/-- One event-loop step.  `submitBusy`/`submitIdle` are
`sendToOrchestrator` pushing a turn and calling `processQueue` (the guard
returns at once when `processing` is set; otherwise the flag is raised
and the head dequeued).  `sessionReady` is `ensureOrchestratorSession`
resolving so `sendAndWait` enters flight.  `drainNext`/`drainStop` are
the loop advancing after the current item settles (a resolved or rejected
send, or a failed session ensure).  `cancelStep` is
`cancelCurrentMessage` draining the queue. -/
inductive FlightStep : FlightState → FlightState → Prop
  | submitBusy (s : FlightState) (t : Nat) (h : s.processing = true) :
      FlightStep s { s with queue := s.queue ++ [t] }
  | submitIdle (s : FlightState) (t : Nat) (h : s.processing = false) :
      FlightStep s { queue := (s.queue ++ [t]).tail,
                     processing := true,
                     drains := s.drains ++ [⟨(s.queue ++ [t]).headD t, .ensuring⟩] }
  | sessionReady (s : FlightState) (d : Drain) (pre post : List Drain)
      (h : s.drains = pre ++ d :: post) (hp : d.phase = .ensuring) :
      FlightStep s { s with drains := pre ++ { d with phase := .sending } :: post }
  | drainNext (s : FlightState) (d : Drain) (pre post : List Drain)
      (h : s.drains = pre ++ d :: post)
      (x : Nat) (rest : List Nat) (hq : s.queue = x :: rest) :
      FlightStep s { s with queue := rest, drains := pre ++ ⟨x, .ensuring⟩ :: post }
  | drainStop (s : FlightState) (d : Drain) (pre post : List Drain)
      (h : s.drains = pre ++ d :: post) (hq : s.queue = []) :
      FlightStep s { s with processing := false, drains := pre ++ post }
  | cancelStep (s : FlightState) :
      FlightStep s { s with queue := [] }

/-- States reachable from the module's initial state (empty queue, flag
down, no active drain). -/
inductive FlightReachable : FlightState → Prop
  | init : FlightReachable ⟨[], false, []⟩
  | step {s s' : FlightState} :
      FlightReachable s → FlightStep s s' → FlightReachable s'

/-- The serialization invariant the `processing` guard maintains: at most
one drain-loop instance is active, and none while the flag is down. -/
def flightInv (s : FlightState) : Prop :=
  s.drains.length ≤ 1 ∧ (s.processing = false → s.drains = [])

/-- The number of `sendAndWait` calls in flight against the primary
session: the drain instances currently in the sending phase. -/
def sendsInFlight (s : FlightState) : Nat :=
  (s.drains.filter (fun d => d.phase == DrainPhase.sending)).length

/-! ## Queue interpreter (deliveries and ordering)

A deterministic interpreter of the same serializer at the granularity of
whole-turn events, tracking what each turn's `deliveryCallback` receives
terminally.  A state couples the `messageQueue` with the retry state of
the async IIFEs in `sendToOrchestrator` that own the queued turns: each
turn carries its submission identifier and its current attempt counter;
turns waiting out a retry delay sit in `sleeping`. -/

/-- A turn together with the owning IIFE's attempt counter. -/
structure QTurn where
  id : Nat
  attempt : Nat
deriving DecidableEq

/-- External events driving one execution: a submission (from a channel
or from `feedBackgroundResult`), the in-flight `executeOnSession` call
settling (with the final content, or rejecting with an error message), a
retry delay elapsing, and `cancelCurrentMessage`. -/
inductive OrchEv
  | submit (id : Nat)
  | sendOk (content : String)
  | sendErr (msg : String)
  | wakeRetry (id : Nat)
  | cancel
deriving DecidableEq

/-- Interpreter state. `delivered` records the terminal
(`done = true`) deliveries in order as (turn id, text). -/
structure OrchState where
  queue : List QTurn
  current : Option QTurn
  sleeping : List QTurn
  delivered : List (Nat × String)
deriving DecidableEq

/-- `processQueue` dequeuing the next item whenever the drain is free
(at this granularity the `processing` flag is set exactly while
`current` is occupied). -/
def maybeStart (s : OrchState) : OrchState :=
  match s.current with
  | some _ => s
  | none =>
    match s.queue with
    | [] => s
    | t :: rest => { s with current := some t, queue := rest }

/-- One event.  On resolution the owning IIFE delivers the final content
terminally.  On rejection its catch block runs: a message matching
/cancelled|abort/i returns with no delivery; a recoverable message with
attempts remaining re-enters later via `wakeRetry`, which re-submits
through `messageQueue.push` — appending at the tail; anything else is
delivered as a terminal error.  `cancel` rejects every queued turn with
"Cancelled", which each owning IIFE swallows (it matches
/cancelled|abort/i), so no delivery results; the in-flight send, if any,
is aborted and settles through a later `sendErr`. -/
def orchStep (s : OrchState) : OrchEv → OrchState
  | .submit i => maybeStart { s with queue := s.queue ++ [⟨i, 0⟩] }
  | .sendOk content =>
    match s.current with
    | none => s
    | some t =>
      maybeStart { s with current := none,
                          delivered := s.delivered ++ [(t.id, content)] }
  | .sendErr m =>
    match s.current with
    | none => s
    | some t =>
      if isCancelMsg m then
        maybeStart { s with current := none }
      else if isRecoverableError m ∧ t.attempt < MAX_RETRIES then
        maybeStart { s with current := none,
                            sleeping := s.sleeping ++ [⟨t.id, t.attempt + 1⟩] }
      else
        maybeStart { s with current := none,
                            delivered := s.delivered ++ [(t.id, "Error: " ++ m)] }
  | .wakeRetry i =>
    match s.sleeping.find? (fun t => t.id == i) with
    | none => s
    | some t =>
      maybeStart { s with sleeping := s.sleeping.filter (fun t' => t'.id != i),
                          queue := s.queue ++ [t] }
  | .cancel => { s with queue := [] }

/-- The interpreter's initial state. -/
def orchInit : OrchState := ⟨[], none, [], []⟩

/-- Run a whole event list. -/
def orchRun (evs : List OrchEv) : OrchState :=
  evs.foldl orchStep orchInit

/-- Is the event one of a failure-free run (submissions and successful
sends only)? -/
def isOkEv : OrchEv → Bool
  | .submit _ => true
  | .sendOk _ => true
  | _ => false

/-- The submission identifiers of an event list, in order. -/
def submitIds (evs : List OrchEv) : List Nat :=
  evs.filterMap (fun e => match e with | .submit i => some i | _ => none)

/-- All turn identifiers still owned by the serializer, in processing
order: already delivered, then in flight, then queued. -/
def turnIds (s : OrchState) : List Nat :=
  s.delivered.map Prod.fst ++ (s.current.map QTurn.id).toList ++ s.queue.map QTurn.id

/-! ## Concrete instances used to witness theorems with hypotheses -/

/-- A lifecycle environment whose resumption always rejects and whose
creation yields the session "new-sess". -/
def c5Env : SessionEnv :=
  { clientOk := true,
    resumeOutcome := fun _ => .error "gone",
    createOutcome := .ok { sessionId := "new-sess" } }

/-- A lifecycle state with no cached session and a stale persisted
identifier. -/
def c5State : LifecycleState :=
  { orchestratorSession := none, persisted := some "old-sess" }

/-- A registry entry created from a telegram-originating turn. -/
def workerA : WorkerInfo :=
  { name := "auth-fix", sessionId := "w-sess", workingDir := "/repo",
    status := .idle, lastOutput := none, originChannel := some .telegram }

/-- A tools state holding `workerA` and its mirror row. -/
def toolsStateA : ToolsState :=
  { workers := [("auth-fix", workerA)],
    workerRows := [("auth-fix",
      { copilotSessionId := some "w-sess", workingDir := "/repo", status := "idle" })] }

/-! ## Helper lemmas on association lists -/

/-- Removing a key makes it unfindable. -/
theorem alistGet_alistRemove_self {α : Type} (k : String) (l : List (String × α)) :
    alistGet k (alistRemove k l) = none := by
  induction l with
  | nil => rfl
  | cons p rest ih =>
    rw [alistRemove, List.filter_cons]
    by_cases h : p.1 = k
    · simpa [h] using ih
    · have hb : (p.1 != k) = true := by simpa [bne_iff_ne] using h
      rw [if_pos hb]
      obtain ⟨k', v⟩ := p
      simpa [alistGet, h] using ih

/-- Lookup walks past a block in which the key does not occur. -/
theorem alistGet_append_of_none {α : Type} (k : String) (l1 l2 : List (String × α))
    (h : alistGet k l1 = none) :
    alistGet k (l1 ++ l2) = alistGet k l2 := by
  induction l1 with
  | nil => rfl
  | cons p rest ih =>
    obtain ⟨k', v⟩ := p
    by_cases hk : k' = k
    · simp [alistGet, hk] at h
    · simp only [alistGet, hk, if_false, List.cons_append] at h ⊢
      exact ih h

/-- Insert-or-replace makes the inserted value the one found. -/
theorem alistGet_alistSet_self {α : Type} (k : String) (v : α) (l : List (String × α)) :
    alistGet k (alistSet k v l) = some v := by
  rw [alistSet, alistGet_append_of_none k _ _ (alistGet_alistRemove_self k l)]
  simp [alistGet]

/-- In-place update maps the looked-up value. -/
theorem alistGet_alistUpdate_self {α : Type} (k : String) (f : α → α)
    (l : List (String × α)) :
    alistGet k (alistUpdate k f l) = (alistGet k l).map f := by
  induction l with
  | nil => rfl
  | cons p rest ih =>
    obtain ⟨k', v⟩ := p
    simp only [alistUpdate, List.map_cons] at ih ⊢
    by_cases h : k' = k
    · subst h
      rw [if_pos rfl]
      simp [alistGet]
    · rw [if_neg h]
      simp only [alistGet, if_neg h]
      exact ih

/-! ## C10 — empty-response fallback -/

/-- C10: when the resolved result carries no content (absent or empty)
and no deltas accumulated, `executeOnSession` yields exactly the literal
"(No response)"; when the content is empty but the accumulated delta text
is nonempty, the accumulated delta text is yielded instead (a delta
stream whose accumulation is empty is indistinguishable from no stream
under JavaScript truthiness). -/
theorem c10_empty_response_fallback (content : Option String) (deltas : List String)
    (hc : content = none ∨ content = some "") :
    (deltas = [] → finalContent content deltas = "(No response)")
    ∧ (String.join deltas ≠ "" → finalContent content deltas = String.join deltas) := by
  have hc' : content.getD "" = "" := by rcases hc with h | h <;> simp [h]
  constructor
  · intro hd
    simp [finalContent, jsOrElse, hc', hd, String.join]
  · intro hj
    simp [finalContent, jsOrElse, hc', hj]

/-- Witness for C10 at content = some "" and deltas = ["partial text"]. -/
theorem c10_empty_response_fallback_witness :
    ((some "" : Option String) = none ∨ (some "" : Option String) = some "")
    ∧ ((["partial text"] : List String) = [] →
        finalContent (some "") ["partial text"] = "(No response)")
    ∧ (String.join ["partial text"] ≠ "" →
        finalContent (some "") ["partial text"] = String.join ["partial text"]) :=
  ⟨Or.inr rfl, c10_empty_response_fallback (some "") ["partial text"] (Or.inr rfl)⟩

/-! ## C3 — retry bound -/

/-- C3 counterexample: "connection aborted" matches the recoverable
classification (branch "connection"), so it is a submission whose every
send attempt raises a recoverable error; yet the catch block checks
/cancelled|abort/i first (branch "abort" matches) and returns at once, so
the loop makes exactly one attempt and delivers no terminal error at all
— not one terminal error after the maximum number of attempts. -/
theorem c3_counterexample :
    isRecoverableError "connection aborted" = true
    ∧ sendToOrchestratorLoop (fun _ => .err "connection aborted") = ([], 1) := by
  constructor
  · decide
  · decide

/-- C3 amended: provided the failing message does not match the
cancellation pattern /cancelled|abort/i (which is checked first and
returns with no delivery and no retry), a submission whose every attempt
raises a recoverable error receives exactly one terminal error delivery,
after MAX_RETRIES + 1 = 4 total attempts (the initial attempt plus
MAX_RETRIES retries), never indefinitely; and a non-recoverable,
non-cancellation error is surfaced terminally on the first attempt
without any retry. -/
theorem c3_retry_bound (msg : String)
    (hrec : isRecoverableError msg = true) (hcan : isCancelMsg msg = false) :
    sendToOrchestratorLoop (fun _ => .err msg)
      = ([("Error: " ++ msg, true)], MAX_RETRIES + 1)
    ∧ (∀ msg2 : String, isRecoverableError msg2 = false → isCancelMsg msg2 = false →
        ∀ env : Nat → SendOutcome, env 0 = .err msg2 →
          sendToOrchestratorLoop env = ([("Error: " ++ msg2, true)], 1))
    ∧ (∀ msg3 : String, isCancelMsg msg3 = true →
        ∀ env : Nat → SendOutcome, env 0 = .err msg3 →
          sendToOrchestratorLoop env = ([], 1)) := by
  refine ⟨?_, ?_, ?_⟩
  · simp [sendToOrchestratorLoop, MAX_RETRIES, sendLoop, hrec, hcan]
  · intro msg2 h2r h2c env h0
    simp [sendToOrchestratorLoop, MAX_RETRIES, sendLoop, h0, h2r, h2c]
  · intro msg3 h3c env h0
    simp [sendToOrchestratorLoop, MAX_RETRIES, sendLoop, h0, h3c]

/-- Witness for C3 (amended) at msg = "timeout". -/
theorem c3_retry_bound_witness :
    isRecoverableError "timeout" = true ∧ isCancelMsg "timeout" = false
    ∧ (sendToOrchestratorLoop (fun _ => .err "timeout")
        = ([("Error: " ++ "timeout", true)], MAX_RETRIES + 1)
      ∧ (∀ msg2 : String, isRecoverableError msg2 = false → isCancelMsg msg2 = false →
          ∀ env : Nat → SendOutcome, env 0 = .err msg2 →
            sendToOrchestratorLoop env = ([("Error: " ++ msg2, true)], 1))
      ∧ (∀ msg3 : String, isCancelMsg msg3 = true →
          ∀ env : Nat → SendOutcome, env 0 = .err msg3 →
            sendToOrchestratorLoop env = ([], 1))) :=
  ⟨by decide, by decide, c3_retry_bound "timeout" (by decide) (by decide)⟩

/-! ## C5 — resume-then-fallback with atomic persistence -/

/-- C5: with no cached session, a connected client, a persisted
identifier that every resumption attempt rejects: if creation succeeds
with session s, `ensureOrchestratorSession` succeeds with s and the
persisted pointer is overwritten with s's identifier; if creation fails,
the error propagates and the state — the persisted pointer included — is
left unchanged.  In general the persisted pointer is only ever written to
a successfully created session's identifier. -/
theorem c5_resume_then_fallback (env : SessionEnv) (st : LifecycleState) (id : String)
    (hs : st.orchestratorSession = none) (hp : st.persisted = some id)
    (hclient : env.clientOk = true)
    (hresume : ∀ i, ∃ e, env.resumeOutcome i = .error e) :
    (∀ s, env.createOutcome = .ok s →
      ensureOrchestratorSession env st
        = (.ok s, { orchestratorSession := some s, persisted := some s.sessionId }))
    ∧ (∀ e, env.createOutcome = .error e →
      ensureOrchestratorSession env st = (.error e, st))
    ∧ (∀ (env' : SessionEnv) (st' : LifecycleState),
        (ensureOrchestratorSession env' st').2.persisted = st'.persisted
        ∨ ∃ s, env'.createOutcome = .ok s
            ∧ (ensureOrchestratorSession env' st').2.persisted = some s.sessionId) := by
  obtain ⟨e0, he0⟩ := hresume id
  refine ⟨?_, ?_, ?_⟩
  · intro s hcreate
    simp [ensureOrchestratorSession, createFresh, hs, hp, hclient, he0, hcreate]
  · intro e hcreate
    simp [ensureOrchestratorSession, createFresh, hs, hp, hclient, he0, hcreate]
  · intro env' st'
    rcases hcache : st'.orchestratorSession with _ | s
    · rcases hck : env'.clientOk
      · left
        simp [ensureOrchestratorSession, hcache, hck]
      · rcases hpers : st'.persisted with _ | savedId
        · rcases hco : env'.createOutcome with e | s
          · left
            simp [ensureOrchestratorSession, createFresh, hcache, hck, hpers, hco]
          · exact Or.inr ⟨s, rfl, by
              simp [ensureOrchestratorSession, createFresh, hcache, hck, hpers, hco]⟩
        · rcases hro : env'.resumeOutcome savedId with e | s
          · rcases hco : env'.createOutcome with e' | s'
            · left
              simp [ensureOrchestratorSession, createFresh, hcache, hck, hpers, hro, hco]
            · exact Or.inr ⟨s', rfl, by
                simp [ensureOrchestratorSession, createFresh, hcache, hck, hpers, hro, hco]⟩
          · left
            simp [ensureOrchestratorSession, hcache, hck, hpers, hro]
    · left
      simp [ensureOrchestratorSession, hcache]

/-- Witness for C5 at a concrete environment whose resumption always
rejects and whose creation yields the session "new-sess". -/
theorem c5_resume_then_fallback_witness :
    c5State.orchestratorSession = none
    ∧ c5State.persisted = some "old-sess"
    ∧ c5Env.clientOk = true
    ∧ (∀ i, ∃ e, c5Env.resumeOutcome i = .error e)
    ∧ ((∀ s, c5Env.createOutcome = .ok s →
        ensureOrchestratorSession c5Env c5State
          = (.ok s, { orchestratorSession := some s, persisted := some s.sessionId }))
      ∧ (∀ e, c5Env.createOutcome = .error e →
          ensureOrchestratorSession c5Env c5State = (.error e, c5State))
      ∧ (∀ (env' : SessionEnv) (st' : LifecycleState),
          (ensureOrchestratorSession env' st').2.persisted = st'.persisted
          ∨ ∃ s, env'.createOutcome = .ok s
              ∧ (ensureOrchestratorSession env' st').2.persisted = some s.sessionId)) :=
  ⟨rfl, rfl, rfl, fun _ => ⟨"gone", rfl⟩,
    c5_resume_then_fallback c5Env c5State "old-sess" rfl rfl rfl (fun _ => ⟨"gone", rfl⟩)⟩

/-! ## More association-list lemmas -/

/-- A removed key is absent from the key listing. -/
theorem not_mem_alistRemove_keys {α : Type} (k : String) (l : List (String × α)) :
    k ∉ (alistRemove k l).map (fun p => p.1) := by
  intro h
  obtain ⟨p, hp, hk⟩ := List.mem_map.mp h
  have hf := List.of_mem_filter hp
  rw [hk] at hf
  simp [bne_iff_ne] at hf

/-- An in-place update that does not touch the origin channel leaves the
origin channel `feedBackgroundResult` captures equal to that of the
looked-up worker. -/
theorem feedOriginChannel_after_update (st : ToolsState) (k : String) (w : WorkerInfo)
    (f : WorkerInfo → WorkerInfo) (hw : alistGet k st.workers = some w)
    (hf : ∀ x, (f x).originChannel = x.originChannel) :
    feedOriginChannel { st with workers := alistUpdate k f st.workers } k
      = w.originChannel := by
  simp [feedOriginChannel, alistGet_alistUpdate_self, hw, hf]

/-! ## C6 — worker name uniqueness -/

/-- C6: when a worker with the requested name already exists in the
registry, the `create_worker_session` handler returns its rejection
acknowledgement with the tools state — the existing registry entry and
its mirror row included — completely unchanged and no effect performed
(in particular no session is created); the `attach_machine_session`
handler behaves the same for an existing name. -/
theorem c6_worker_name_uniqueness (st : ToolsState) (name : String)
    (hname : alistHas name st.workers = true) :
    (∀ (sid : String) (cur : Option Channel) (wd : String) (ip : Option String),
      createWorkerSessionTool sid cur st { name := name, workingDir := wd, initialPrompt := ip }
        = ("Worker '" ++ name ++ "' already exists. Use send_to_worker to interact with it.",
           st, []))
    ∧ (∀ (ro : String → Except String Session) (cur : Option Channel) (sid : String),
      attachMachineSessionTool ro cur st { sessionId := sid, name := name }
        = ("A worker named '" ++ name ++ "' already exists. Choose a different name.",
           st, [])) := by
  constructor
  · intro sid cur wd ip
    simp [createWorkerSessionTool, hname]
  · intro ro cur sid
    simp [attachMachineSessionTool, hname]

/-- Witness for C6 at a registry holding the worker "auth-fix". -/
theorem c6_worker_name_uniqueness_witness :
    alistHas "auth-fix" toolsStateA.workers = true
    ∧ ((∀ (sid : String) (cur : Option Channel) (wd : String) (ip : Option String),
        createWorkerSessionTool sid cur toolsStateA
            { name := "auth-fix", workingDir := wd, initialPrompt := ip }
          = ("Worker '" ++ "auth-fix" ++
               "' already exists. Use send_to_worker to interact with it.",
             toolsStateA, []))
      ∧ (∀ (ro : String → Except String Session) (cur : Option Channel) (sid : String),
        attachMachineSessionTool ro cur toolsStateA { sessionId := sid, name := "auth-fix" }
          = ("A worker named '" ++ "auth-fix" ++ "' already exists. Choose a different name.",
             toolsStateA, []))) :=
  ⟨by decide, c6_worker_name_uniqueness toolsStateA "auth-fix" (by decide)⟩

/-! ## C7 — auto-teardown after dispatch -/

/-- C7: once a dispatch completes — whether the worker's send resolved or
rejected — the worker is gone from the in-memory registry (so it no
longer appears among the names `list_sessions` renders), its
`worker_sessions` mirror row is deleted, and its session handle is
destroyed. -/
theorem c7_auto_teardown (st : ToolsState) (w : WorkerInfo) (outcome : SendOutcome) :
    alistGet w.name (dispatchComplete st w outcome).1.workers = none
    ∧ alistGet w.name (dispatchComplete st w outcome).1.workerRows = none
    ∧ w.name ∉ listedWorkerNames (dispatchComplete st w outcome).1
    ∧ WorkerEff.destroySession w.sessionId ∈ (dispatchComplete st w outcome).2 := by
  refine ⟨?_, ?_, ?_, ?_⟩
  · exact alistGet_alistRemove_self w.name _
  · exact alistGet_alistRemove_self w.name _
  · exact not_mem_alistRemove_keys w.name _
  · simp [dispatchComplete]

/-! ## C8 — teardown ordering relative to the completion report -/

/-- C8 counterexample: completing a concrete dispatch produces the effect
trace [report, destroy, registry removal, mirror removal] — the
`onWorkerComplete` report comes first (at index 0, with the worker's
origin channel captured from the still-present registry entry), while the
registry removal sits at index 2 and the mirror removal at index 3, so it
is false that both removals complete before the completion is reported. -/
theorem c8_counterexample :
    (dispatchComplete toolsStateA workerA (.ok "done")).2
      = [.enqueueBackgroundTurn "auth-fix" "done" (some .telegram),
         .destroySession "w-sess",
         .removeWorker "auth-fix",
         .removeRow "auth-fix"]
    ∧ ¬ ((dispatchComplete toolsStateA workerA (.ok "done")).2.findIdx
            (fun e => e == .removeWorker "auth-fix")
          < (dispatchComplete toolsStateA workerA (.ok "done")).2.findIdx
            (fun e => e == .enqueueBackgroundTurn "auth-fix" "done" (some .telegram)))
    ∧ ¬ ((dispatchComplete toolsStateA workerA (.ok "done")).2.findIdx
            (fun e => e == .removeRow "auth-fix")
          < (dispatchComplete toolsStateA workerA (.ok "done")).2.findIdx
            (fun e => e == .enqueueBackgroundTurn "auth-fix" "done" (some .telegram))) :=
  ⟨by decide, by decide, by decide⟩

/-- C8 amended: for every completed worker dispatch the effects run in
the order report, session destruction, registry removal, mirror removal:
the registry removal does precede the mirror removal, but both complete
only after the completion has been reported via `onWorkerComplete`, which
therefore still observes the worker — the reported origin channel is the
present worker's. -/
theorem c8_teardown_order (st : ToolsState) (w : WorkerInfo) (outcome : SendOutcome)
    (hw : alistGet w.name st.workers = some w) :
    (dispatchComplete st w outcome).2
      = [.enqueueBackgroundTurn w.name (dispatchReportText outcome) w.originChannel,
         .destroySession w.sessionId,
         .removeWorker w.name,
         .removeRow w.name] := by
  simp only [dispatchComplete]
  rw [feedOriginChannel_after_update st w.name w
        (fun wi => { wi with lastOutput := some (dispatchOutput outcome) }) hw
        (fun x => rfl)]

/-- Witness for C8 (amended) at the concrete state `toolsStateA`. -/
theorem c8_teardown_order_witness :
    alistGet workerA.name toolsStateA.workers = some workerA
    ∧ (dispatchComplete toolsStateA workerA (.err "boom")).2
        = [.enqueueBackgroundTurn workerA.name (dispatchReportText (.err "boom"))
             workerA.originChannel,
           .destroySession workerA.sessionId,
           .removeWorker workerA.name,
           .removeRow workerA.name] :=
  ⟨by decide, c8_teardown_order toolsStateA workerA (.err "boom") (by decide)⟩

/-! ## C9 — origin routing -/

/-- C9: a worker created by `create_worker_session` (with an initial
prompt) while a turn whose source channel is `cur` is being processed
records `originChannel = cur`; when its dispatched task completes, the
report — the enqueued background turn — carries exactly that channel, and
the synthetic turn's terminal delivery invokes the proactive notify hook
with that channel (partial deliveries invoke nothing).  Instantiating
`cur` with `some X` gives routing back to channel X; instantiating it
with `none` (a background-origin creating turn) gives a notify with the
channel omitted. -/
theorem c9_origin_routing (sid : String) (cur : Option Channel) (st : ToolsState)
    (name wd p : String) (hfresh : alistHas name st.workers = false)
    (outcome : SendOutcome) (text : String) :
    alistGet name (createWorkerSessionTool sid cur st
        { name := name, workingDir := wd, initialPrompt := some p }).2.1.workers
      = some { name := name, sessionId := sid, workingDir := wd,
               status := .running, lastOutput := none, originChannel := cur }
    ∧ (dispatchComplete (createWorkerSessionTool sid cur st
          { name := name, workingDir := wd, initialPrompt := some p }).2.1
        { name := name, sessionId := sid, workingDir := wd,
          status := .running, lastOutput := none, originChannel := cur } outcome).2.head?
      = some (.enqueueBackgroundTurn name (dispatchReportText outcome) cur)
    ∧ backgroundCallbackNotify cur text true = [(text, cur)]
    ∧ backgroundCallbackNotify cur text false = [] := by
  have hstep : (createWorkerSessionTool sid cur st
      { name := name, workingDir := wd, initialPrompt := some p }).2.1.workers
      = alistUpdate name (fun wi => { wi with status := .running })
          (alistSet name
            { name := name, sessionId := sid, workingDir := wd,
              status := .idle, lastOutput := none, originChannel := cur } st.workers) := by
    simp [createWorkerSessionTool, hfresh]
  have hget : alistGet name (createWorkerSessionTool sid cur st
      { name := name, workingDir := wd, initialPrompt := some p }).2.1.workers
      = some { name := name, sessionId := sid, workingDir := wd,
               status := .running, lastOutput := none, originChannel := cur } := by
    rw [hstep, alistGet_alistUpdate_self, alistGet_alistSet_self]
    rfl
  refine ⟨hget, ?_, rfl, rfl⟩
  simp only [dispatchComplete]
  rw [feedOriginChannel_after_update
        (createWorkerSessionTool sid cur st
          { name := name, workingDir := wd, initialPrompt := some p }).2.1
        name
        { name := name, sessionId := sid, workingDir := wd,
          status := .running, lastOutput := none, originChannel := cur }
        (fun wi => { wi with lastOutput := some (dispatchOutput outcome) }) hget
        (fun x => rfl)]
  rfl

/-- Witness for C9 at a fresh registry, channel telegram, a succeeding
dispatch, and the delivery text "done". -/
theorem c9_origin_routing_witness :
    alistHas "fix-ci" (⟨[], []⟩ : ToolsState).workers = false
    ∧ (alistGet "fix-ci" (createWorkerSessionTool "s9" (some .telegram) ⟨[], []⟩
          { name := "fix-ci", workingDir := "/repo", initialPrompt := some "go" }).2.1.workers
        = some { name := "fix-ci", sessionId := "s9", workingDir := "/repo",
                 status := .running, lastOutput := none, originChannel := some .telegram }
      ∧ (dispatchComplete (createWorkerSessionTool "s9" (some .telegram) ⟨[], []⟩
            { name := "fix-ci", workingDir := "/repo", initialPrompt := some "go" }).2.1
          { name := "fix-ci", sessionId := "s9", workingDir := "/repo",
            status := .running, lastOutput := none, originChannel := some .telegram }
          (.ok "ok")).2.head?
        = some (.enqueueBackgroundTurn "fix-ci" (dispatchReportText (.ok "ok"))
            (some .telegram))
      ∧ backgroundCallbackNotify (some .telegram) "done" true = [("done", some .telegram)]
      ∧ backgroundCallbackNotify (some .telegram) "done" false = []) :=
  ⟨by decide,
    c9_origin_routing "s9" (some .telegram) ⟨[], []⟩ "fix-ci" "/repo" "go"
      (by decide) (.ok "ok") "done"⟩

/-! ## C1 — single-flight serialization -/

/-- Every event-loop step preserves the serialization invariant. -/
theorem flightInv_step {s s' : FlightState} (h : flightInv s) (hs : FlightStep s s') :
    flightInv s' := by
  obtain ⟨hlen, hproc⟩ := h
  cases hs with
  | submitBusy t hp =>
    exact ⟨hlen, fun hf => hproc hf⟩
  | submitIdle t hp =>
    rw [hproc hp]
    exact ⟨by simp, by simp⟩
  | sessionReady d pre post hd hphase =>
    refine ⟨?_, ?_⟩
    · have h1 := hlen
      rw [hd] at h1
      simpa using h1
    · intro hf
      have h2 := hproc hf
      rw [hd] at h2
      simp at h2
  | drainNext d pre post hd x rest hq =>
    refine ⟨?_, ?_⟩
    · have h1 := hlen
      rw [hd] at h1
      simpa using h1
    · intro hf
      have h2 := hproc hf
      rw [hd] at h2
      simp at h2
  | drainStop d pre post hd hq =>
    have hlen' := hlen
    rw [hd] at hlen'
    simp only [List.length_append, List.length_cons] at hlen'
    have hpre : pre = [] := by
      cases pre with
      | nil => rfl
      | cons a l =>
        simp only [List.length_cons] at hlen'
        omega
    have hpost : post = [] := by
      cases post with
      | nil => rfl
      | cons a l =>
        rw [hpre] at hlen'
        simp only [List.length_nil, List.length_cons] at hlen'
        omega
    rw [hpre, hpost]
    exact ⟨by simp, fun _ => rfl⟩
  | cancelStep =>
    exact ⟨hlen, fun hf => hproc hf⟩

/-- Every reachable state satisfies the serialization invariant. -/
theorem flightInv_reachable {s : FlightState} (h : FlightReachable s) : flightInv s := by
  induction h with
  | init => exact ⟨by simp, fun _ => rfl⟩
  | step _ hs ih => exact flightInv_step ih hs

/-- C1: in every reachable state of the event-loop model at most one
`sendAndWait` call is in flight against the primary session — the drain
loop, guarded by the `processing` flag, executes at most one queued turn
at a time, and all submissions (the background feeder's included) land in
the one shared `messageQueue` the model's submit steps push to. -/
theorem c1_single_flight (s : FlightState) (h : FlightReachable s) :
    sendsInFlight s ≤ 1 := by
  have hinv := flightInv_reachable h
  calc sendsInFlight s ≤ s.drains.length := List.length_filter_le _ _
    _ ≤ 1 := hinv.1

/-- Witness for C1 at the reachable state following one idle submission
(turn 1 dequeued, its drain in the ensuring phase). -/
theorem c1_single_flight_witness :
    FlightReachable ⟨[], true, [⟨1, .ensuring⟩]⟩
    ∧ sendsInFlight ⟨[], true, [⟨1, .ensuring⟩]⟩ ≤ 1 :=
  ⟨FlightReachable.step FlightReachable.init (FlightStep.submitIdle ⟨[], false, []⟩ 1 rfl),
   c1_single_flight ⟨[], true, [⟨1, .ensuring⟩]⟩
     (FlightReachable.step FlightReachable.init
       (FlightStep.submitIdle ⟨[], false, []⟩ 1 rfl))⟩

/-! ## C2 — cancellation semantics -/

/-- C2 counterexample: three turns are submitted (turn 1 is immediately
dequeued by the drain, turns 2 and 3 wait in the queue), then
`cancelCurrentMessage` runs and the aborted in-flight send settles.  The
queue is empty afterwards, but the delivered list is empty too: neither
the two drained turns nor the aborted one ever receives any terminal
delivery — in particular no "cancelled" delivery with done = true —
because the owning submission loops swallow messages matching
/cancelled|abort/i. -/
theorem c2_counterexample :
    orchRun [.submit 1, .submit 2, .submit 3, .cancel, .sendErr "aborted"]
      = { queue := [], current := none, sleeping := [], delivered := [] } := by
  decide

/-- C2 amended: `cancelCurrentMessage` removes every not-yet-started turn
from the queue, leaving it empty; each drained turn's promise is rejected
with "Cancelled", which its submission loop swallows — the message
matches the /cancelled|abort/i classification — so no deliveryCallback
invocation results: the delivered list, the in-flight turn and the retry
sleepers are all unchanged by the drain. -/
theorem c2_cancel_drains (s : OrchState) :
    (orchStep s .cancel).queue = []
    ∧ (orchStep s .cancel).delivered = s.delivered
    ∧ (orchStep s .cancel).current = s.current
    ∧ (orchStep s .cancel).sleeping = s.sleeping
    ∧ isCancelMsg "Cancelled" = true :=
  ⟨rfl, rfl, rfl, rfl, by decide⟩

/-! ## C4 — ordering and retry re-entry -/

/-- One failure-free event preserves the processing-order accounting and
the drain's idle-implies-empty-queue property. -/
theorem orchStep_ok_turnIds (s : OrchState) (e : OrchEv) (he : isOkEv e = true)
    (haux : s.current = none → s.queue = []) :
    turnIds (orchStep s e) = turnIds s ++ submitIds [e]
    ∧ ((orchStep s e).current = none → (orchStep s e).queue = []) := by
  cases e with
  | submit i =>
    rcases hc : s.current with _ | t
    · have hq : s.queue = [] := haux hc
      constructor
      · simp [orchStep, maybeStart, hc, hq, turnIds, submitIds]
      · intro hf
        simp [orchStep, maybeStart, hc, hq] at hf
    · constructor
      · simp [orchStep, maybeStart, hc, turnIds, submitIds]
      · intro hf
        simp [orchStep, maybeStart, hc] at hf
  | sendOk content =>
    rcases hc : s.current with _ | t
    · constructor
      · simp [orchStep, hc, turnIds, submitIds]
      · intro _
        simp only [orchStep, hc]
        exact haux hc
    · rcases hq : s.queue with _ | ⟨x, rest⟩
      · constructor
        · simp [orchStep, maybeStart, hc, hq, turnIds, submitIds]
        · intro _
          simp [orchStep, maybeStart, hc, hq]
      · constructor
        · simp [orchStep, maybeStart, hc, hq, turnIds, submitIds]
        · intro hf
          simp [orchStep, maybeStart, hc, hq] at hf
  | sendErr m => simp [isOkEv] at he
  | wakeRetry i => simp [isOkEv] at he
  | cancel => simp [isOkEv] at he

/-- In a failure-free run from a drain-consistent state, the delivered,
in-flight and queued identifiers concatenate to the prior accounting plus
the submissions, in order. -/
theorem orchRun_fifo_from (evs : List OrchEv) :
    ∀ (s : OrchState), (∀ e ∈ evs, isOkEv e = true) →
    (s.current = none → s.queue = []) →
    turnIds (evs.foldl orchStep s) = turnIds s ++ submitIds evs
    ∧ ((evs.foldl orchStep s).current = none → (evs.foldl orchStep s).queue = []) := by
  induction evs with
  | nil =>
    intro s _ haux
    exact ⟨by simp [submitIds], haux⟩
  | cons e rest ih =>
    intro s hok haux
    have he : isOkEv e = true := hok e (by simp)
    have hstep := orchStep_ok_turnIds s e he haux
    have hrest := ih (orchStep s e) (fun x hx => hok x (by simp [hx])) hstep.2
    refine ⟨?_, hrest.2⟩
    have hcat : submitIds [e] ++ submitIds rest = submitIds (e :: rest) := by
      rw [submitIds, submitIds, submitIds, ← List.filterMap_append,
        List.singleton_append]
    rw [List.foldl_cons, hrest.1, hstep.1, List.append_assoc, hcat]

/-- C4 amended: a turn retried after a recoverable failure re-enters at
the TAIL of the messageQueue (the retry loop re-submits through
`messageQueue.push`), behind every turn queued at retry time — including
turns submitted after the original attempt — not at the head; the
claim's failure-free half stands: in a run of submissions and successful
sends only, the serializer's processing order (delivered, then in-flight,
then queued identifiers) is exactly the submission order. -/
theorem c4_fifo_tail_retry (s : OrchState) (i : Nat) (t c : QTurn)
    (hfind : s.sleeping.find? (fun t' => t'.id == i) = some t)
    (hcur : s.current = some c)
    (evs : List OrchEv) (hok : ∀ e ∈ evs, isOkEv e = true) :
    (orchStep s (.wakeRetry i)).queue = s.queue ++ [t]
    ∧ turnIds (orchRun evs) = submitIds evs := by
  constructor
  · simp [orchStep, hfind, maybeStart, hcur]
  · have h := orchRun_fifo_from evs orchInit hok (fun _ => rfl)
    simpa [orchRun, turnIds, orchInit] using h.1

/-- Witness for C4 (amended): a state with turn 5 sleeping on a retry,
turn 7 in flight and turn 9 queued, woken at 5; and the failure-free run
submit 1, submit 2, ok, ok. -/
theorem c4_fifo_tail_retry_witness :
    (⟨[⟨9, 0⟩], some ⟨7, 0⟩, [⟨5, 1⟩], []⟩ : OrchState).sleeping.find?
        (fun t' => t'.id == 5) = some ⟨5, 1⟩
    ∧ (⟨[⟨9, 0⟩], some ⟨7, 0⟩, [⟨5, 1⟩], []⟩ : OrchState).current = some ⟨7, 0⟩
    ∧ (∀ e ∈ ([.submit 1, .submit 2, .sendOk "x", .sendOk "y"] : List OrchEv),
        isOkEv e = true)
    ∧ ((orchStep ⟨[⟨9, 0⟩], some ⟨7, 0⟩, [⟨5, 1⟩], []⟩ (.wakeRetry 5)).queue
        = [⟨9, 0⟩] ++ [⟨5, 1⟩]
      ∧ turnIds (orchRun [.submit 1, .submit 2, .sendOk "x", .sendOk "y"])
        = submitIds [.submit 1, .submit 2, .sendOk "x", .sendOk "y"]) :=
  ⟨by decide, rfl, by decide,
    c4_fifo_tail_retry ⟨[⟨9, 0⟩], some ⟨7, 0⟩, [⟨5, 1⟩], []⟩ 5 ⟨5, 1⟩ ⟨7, 0⟩
      (by decide) rfl [.submit 1, .submit 2, .sendOk "x", .sendOk "y"] (by decide)⟩

/-- C4 counterexample: turn 1 fails recoverably and sleeps; turns 3 and 4
are submitted after that original attempt; waking turn 1's retry appends
it at the TAIL — the queue reads [3, 4, retried 1], not [retried 1, ...]
— and completing the run delivers terminals in the order 2, 3, 4, 1:
turn 4, submitted after turn 1's original attempt and not at the head of
the queue at retry time (turn 3 was), is processed before the retried
turn 1, refuting head re-entry. -/
theorem c4_counterexample :
    (orchRun [.submit 1, .submit 2, .sendErr "timeout", .submit 3, .submit 4,
              .wakeRetry 1]).queue = [⟨3, 0⟩, ⟨4, 0⟩, ⟨1, 1⟩]
    ∧ (orchRun [.submit 1, .submit 2, .sendErr "timeout", .submit 3, .submit 4,
              .wakeRetry 1, .sendOk "b", .sendOk "c", .sendOk "d", .sendOk "a"]).delivered
        = [(2, "b"), (3, "c"), (4, "d"), (1, "a")] := by
  exact ⟨by decide, by decide⟩

end Max
